import Mathlib

/-!
Verification of the mypy/bazel integration driver (`src/mypy/main.py`).

The script monkey-patches the process-wide package-discovery functions
`site.getsitepackages` and `site.getusersitepackages`, invokes mypy with both
of its output streams redirected into one in-memory sink, and restores the
original discovery functions afterwards.

The embedding below models:
  * the file system seen by the script (manifest file contents, path existence,
    and the OS error text for a failed read);
  * the pair of process-wide discovery functions as an explicit `SiteState`,
    with the module-level captures `_original_getsitepackages` /
    `_original_getusersitepackages` (main.py lines 10-11) represented by the
    `original` constructors;
  * `monkey_patch_sitepackages` (lines 14-64) split into its pure decision part
    (`monkey_patch_sitepackages`, returning read-failure / assertion-failure /
    the computed `site_packages` list) and its state effect
    (`installOverrides`, the two assignments at lines 63-64);
  * `restore_original_sitepackages` (lines 67-69) as `restoreSitepackages`;
  * the `__main__` block (lines 72-94) as `runMain`, which produces the ordered
    trace of observable events (override install, checker invocation, writes to
    the real stdout/stderr) together with the process termination and the final
    discovery state.
-/

namespace BazelMypy

/-- Model of the file system and OS visible to the script: manifest files that
can be read (`files`, path ↦ content), directories that exist (`dirs`), and the
text of the OS exception raised when the manifest read fails (`errText`,
standing for the Python exception object `e` at line 33). -/
structure FS where
  files : List (String × String)
  dirs : List String
  errText : String
deriving DecidableEq

/-- `Path(p).read_text()` (line 31): succeeds with the file content exactly
when the file exists. -/
def FS.readFile (fs : FS) (p : String) : Option String :=
  fs.files.lookup p

/-- `os.path.exists` (line 52): a path exists when it is a readable file or a
directory of the model. -/
def FS.pathExists (fs : FS) (p : String) : Bool :=
  (fs.files.lookup p).isSome || fs.dirs.contains p

/-- The value of the process-wide `site.getsitepackages` slot: either the
function captured at module load (line 10) or the closure
`__bazel_override_getsitepackages__` (lines 54-57) carrying its captured
`site_packages` list. -/
inductive SitePackagesFn where
  | original
  | bazelOverride (site_packages : List String)
deriving DecidableEq

/-- The value of the process-wide `site.getusersitepackages` slot: either the
function captured at module load (line 11) or the closure
`__bazel_override_getusersitepackages__` (lines 59-61). -/
inductive UserSitePackagesFn where
  | original
  | bazelOverride
deriving DecidableEq

/-- The pair of process-wide discovery-function slots mutated by the script. -/
structure SiteState where
  getsitepackages : SitePackagesFn
  getusersitepackages : UserSitePackagesFn
deriving DecidableEq

/-- The discovery state at process start: both slots hold the functions that
lines 10-11 capture into `_original_getsitepackages` /
`_original_getusersitepackages`. -/
def initialSiteState : SiteState :=
  ⟨.original, .original⟩

/-- Calling the function currently stored in the `site.getsitepackages` slot.
`origResult` is the list the captured original function returns; the override
(lines 54-57) returns `site_packages + _original_getsitepackages()`, where
`_original_getsitepackages` is the module-level capture, not the current slot
value. -/
def callGetsitepackages (origResult : List String) : SitePackagesFn → List String
  | .original => origResult
  | .bazelOverride site_packages => site_packages ++ origResult

/-- Calling the function currently stored in the `site.getusersitepackages`
slot. `origResult` is what the captured original returns; the override
(lines 59-61) returns the empty string unconditionally. -/
def callGetusersitepackages (origResult : String) : UserSitePackagesFn → String
  | .original => origResult
  | .bazelOverride => ""

/-- Python `str.split("\n")` (line 31), defined structurally over the
character list: splitting the empty string gives `[""]`, and every newline
starts a fresh (possibly empty) segment. -/
def splitNewlinesChars : List Char → List (List Char)
  | [] => [[]]
  | c :: rest =>
    match splitNewlinesChars rest with
    | [] => [[]]
    | l :: ls => if c = '\n' then [] :: l :: ls else (c :: l) :: ls

/-- `content.split("\n")` on strings. -/
def splitOnNewlines (s : String) : List String :=
  (splitNewlinesChars s.data).map (fun cs => String.mk cs)

/-- POSIX `os.path.join(a, b)` (line 46) for two components: an absolute `b`
replaces `a`; otherwise a separator is inserted unless `a` is empty or already
ends in one. -/
def osPathJoin (a b : String) : String :=
  if b.data.head? = some '/' then b
  else if a.data = [] ∨ a.data.getLast? = some '/' then a ++ b
  else a ++ "/" ++ b

/-- The line printed (to `sys.stdout`, via bare `print`) when reading the
manifest raises (lines 34-37): the f-string naming the manifest path, followed
by the printed exception `e` (print joins its two arguments with a space). -/
def manifestReadErrorMsg (path e : String) : String :=
  "Unexpected error while reading dependency manifest file at \x27" ++ (path ++ ("\x27 " ++ e))

/-- Outcome of `monkey_patch_sitepackages` (lines 14-64): the `sys.exit(1)`
path after a failed manifest read (lines 33-38, with the line it printed), an
`AssertionError` from the existence check (lines 51-52, with the first missing
resolved path), or success carrying the computed `site_packages` list
(lines 40-48). -/
inductive MonkeyPatchResult where
  | readFailure (printedLine : String)
  | assertionFailure (missingPath : String)
  | installed (site_packages : List String)
deriving DecidableEq

/-- Decision part of `monkey_patch_sitepackages` (lines 14-64): read and split
the manifest, resolve each entry against `runfiles_root`, and check that every
resolved path exists. -/
def monkey_patch_sitepackages (fs : FS)
    (external_deps_manifest_path runfiles_root : String) : MonkeyPatchResult :=
  match fs.readFile external_deps_manifest_path with
  | none => .readFailure (manifestReadErrorMsg external_deps_manifest_path fs.errText)
  | some content =>
    let external_deps_manifest := splitOnNewlines content
    let site_packages := external_deps_manifest.map (osPathJoin runfiles_root)
    match site_packages.find? (fun p => !(fs.pathExists p)) with
    | some p => .assertionFailure p
    | none => .installed site_packages

/-- The state effect of the two assignments at lines 63-64: both slots are
overwritten with the override closures, regardless of what they held before. -/
def installOverrides (site_packages : List String) (_s : SiteState) : SiteState :=
  ⟨.bazelOverride site_packages, .bazelOverride⟩

/-- `restore_original_sitepackages` (lines 67-69): both slots are assigned the
module-level captures from lines 10-11, i.e. the process-start values,
regardless of the current state. -/
def restoreSitepackages (_s : SiteState) : SiteState :=
  initialSiteState

/-- An observable event of the `__main__` block (lines 72-94), in order of
occurrence: installing the override (line 80 via lines 63-64), calling
`main(None, stderr, stderr, unknown)` (line 86), a `print` to the real
`sys.stdout` or `sys.stderr` (lines 34-37, 90, 91; `print` appends a newline),
and calling `restore_original_sitepackages` (line 93). -/
inductive Event where
  | installOverride
  | invokeChecker
  | printStdout (line : String)
  | printStderr (line : String)
  | restoreOriginal
deriving DecidableEq

/-- How the process terminates: `sys.exit(code)`, an uncaught
`AssertionError` from line 52, or the propagation of an unexpected exception
raised by the checker (the `finally` at line 92 still ran first). -/
inductive Termination where
  | exited (code : Nat)
  | assertionError
  | uncaughtError
deriving DecidableEq

/-- Behaviour of the opaque checker entry point `main` (line 86). Both of its
stream arguments are the same `StringIO` object (the local variable named
`stderr`), so `sinkOutput` is everything the checker wrote to either stream,
accumulated in that single sink; the `stdout` `StringIO` of line 83 is never
passed to the checker. The checker either returns normally, raises
`SystemExit(code)`, or raises some other exception. -/
inductive CheckerBehavior where
  | returns (sinkOutput : String)
  | raisesSystemExit (code : Nat) (sinkOutput : String)
  | raisesError (sinkOutput : String)
deriving DecidableEq

/-- The `__main__` block (lines 72-94): run `monkey_patch_sitepackages`
(line 80; its `sys.exit(1)` and `AssertionError` paths escape before the `try`
block, so no override is installed and nothing is restored), then the
`try/except SystemExit/finally` around the checker call. On `SystemExit`,
line 90 prints the (empty) `stdout` sink to the real stdout and line 91 prints
the captured sink to the real stderr, and only then does the `finally` restore
the originals. Returns the event trace, the termination, and the final
discovery state. -/
def runMain (fs : FS) (external_deps_manifest_path runfiles_root : String)
    (checker : CheckerBehavior) : List Event × Termination × SiteState :=
  match monkey_patch_sitepackages fs external_deps_manifest_path runfiles_root with
  | .readFailure printedLine =>
    ([.printStdout (printedLine ++ "\n")], .exited 1, initialSiteState)
  | .assertionFailure _ =>
    ([], .assertionError, initialSiteState)
  | .installed site_packages =>
    let st := installOverrides site_packages initialSiteState
    let stdoutSink : String := ""
    match checker with
    | .returns _ =>
      ([.installOverride, .invokeChecker, .restoreOriginal],
       .exited 0, restoreSitepackages st)
    | .raisesSystemExit code sinkOutput =>
      ([.installOverride, .invokeChecker,
        .printStdout (stdoutSink ++ "\n"), .printStderr (sinkOutput ++ "\n"),
        .restoreOriginal],
       .exited code, restoreSitepackages st)
    | .raisesError _ =>
      ([.installOverride, .invokeChecker, .restoreOriginal],
       .uncaughtError, restoreSitepackages st)

/-- `occursBefore e1 e2 tr` holds when some occurrence of `e1` in `tr` is
strictly earlier than some occurrence of `e2`. -/
def occursBefore (e1 e2 : Event) : List Event → Bool
  | [] => false
  | e :: rest => (decide (e = e1) && decide (e2 ∈ rest)) || occursBefore e1 e2 rest

/-- A sandbox fixture: a manifest listing `libs/foo` and `libs/bar`, both of
which exist as directories under the root `/sandbox`. -/
def sampleFS : FS :=
  ⟨[("manifest.txt", "libs/foo\nlibs/bar")],
   ["/sandbox/libs/foo", "/sandbox/libs/bar"],
   "ioerror"⟩

/-- A fixture whose manifest names a path that does not exist under the
root. -/
def missingDirFS : FS :=
  ⟨[("manifest.txt", "libs/foo\nlibs/missing")],
   ["/sandbox/libs/foo"],
   "ioerror"⟩

/-- A fixture with no manifest file at all. -/
def noManifestFS : FS :=
  ⟨[], ["/sandbox/libs/foo"], "No such file or directory"⟩

/-- When every resolved manifest path exists, the existence scan at
lines 51-52 finds no failing path and `monkey_patch_sitepackages` succeeds
with the resolved list. -/
theorem monkey_patch_installed_of_all_exist (fs : FS) (mp rr content : String)
    (hread : fs.readFile mp = some content)
    (hex : ∀ p ∈ (splitOnNewlines content).map (osPathJoin rr), fs.pathExists p = true) :
    monkey_patch_sitepackages fs mp rr =
      .installed ((splitOnNewlines content).map (osPathJoin rr)) := by
  have hnone : ((splitOnNewlines content).map (osPathJoin rr)).find?
      (fun p => !(fs.pathExists p)) = none := by
    rw [List.find?_eq_none]
    intro x hx
    rw [hex x hx]
    simp
  unfold monkey_patch_sitepackages
  rw [hread]
  simp only [hnone]

/-- C1: for a sandbox root R and a manifest whose lines, resolved under R, all
exist, the override installed by `monkey_patch_sitepackages` makes the primary
discovery function return exactly the resolved list followed by whatever the
original primary function returns, in that order. -/
theorem c1_primary_override_result (fs : FS) (mp rr content : String)
    (origResult : List String) (s : SiteState)
    (hread : fs.readFile mp = some content)
    (hex : ∀ p ∈ (splitOnNewlines content).map (osPathJoin rr), fs.pathExists p = true) :
    monkey_patch_sitepackages fs mp rr =
      .installed ((splitOnNewlines content).map (osPathJoin rr)) ∧
    callGetsitepackages origResult
        ((installOverrides ((splitOnNewlines content).map (osPathJoin rr)) s).getsitepackages) =
      (splitOnNewlines content).map (osPathJoin rr) ++ origResult :=
  ⟨monkey_patch_installed_of_all_exist fs mp rr content hread hex, rfl⟩

/-- Witness for C1: the sample manifest lists `libs/foo` and `libs/bar`, both
existing under `/sandbox`; the override returns the two resolved paths
followed by the original result. -/
theorem c1_primary_override_result_witness :
    sampleFS.readFile "manifest.txt" = some "libs/foo\nlibs/bar" ∧
    (∀ p ∈ (splitOnNewlines "libs/foo\nlibs/bar").map (osPathJoin "/sandbox"),
      sampleFS.pathExists p = true) ∧
    (monkey_patch_sitepackages sampleFS "manifest.txt" "/sandbox" =
      .installed ((splitOnNewlines "libs/foo\nlibs/bar").map (osPathJoin "/sandbox")) ∧
    callGetsitepackages ["/usr/lib/python3/site-packages"]
        ((installOverrides ((splitOnNewlines "libs/foo\nlibs/bar").map (osPathJoin "/sandbox"))
          initialSiteState).getsitepackages) =
      (splitOnNewlines "libs/foo\nlibs/bar").map (osPathJoin "/sandbox") ++
        ["/usr/lib/python3/site-packages"]) :=
  ⟨by decide, by decide,
    c1_primary_override_result sampleFS "manifest.txt" "/sandbox" "libs/foo\nlibs/bar"
      ["/usr/lib/python3/site-packages"] initialSiteState (by decide) (by decide)⟩

/-- C2: whenever the override was installed (so the checker is reached), every
way the checker can finish — normal return, SystemExit, or any other
exception — leads to exactly one `restore_original_sitepackages` call, as the
last event before control leaves, and the final discovery state is the
original one: the override is never left installed. -/
theorem c2_restore_on_every_exit_path (fs : FS) (mp rr : String)
    (site_packages : List String) (checker : CheckerBehavior)
    (h : monkey_patch_sitepackages fs mp rr = .installed site_packages) :
    (runMain fs mp rr checker).1.count .restoreOriginal = 1 ∧
    (runMain fs mp rr checker).1.getLast? = some .restoreOriginal ∧
    (runMain fs mp rr checker).2.2 = initialSiteState := by
  unfold runMain
  rw [h]
  cases checker <;> exact ⟨rfl, rfl, rfl⟩

/-- Witness for C2: on the sample sandbox with a checker that raises an
unexpected exception, restoration still happens exactly once, last, and the
final state is the original. -/
theorem c2_restore_on_every_exit_path_witness :
    monkey_patch_sitepackages sampleFS "manifest.txt" "/sandbox" =
      .installed ["/sandbox/libs/foo", "/sandbox/libs/bar"] ∧
    ((runMain sampleFS "manifest.txt" "/sandbox" (.raisesError "boom")).1.count
        .restoreOriginal = 1 ∧
    (runMain sampleFS "manifest.txt" "/sandbox" (.raisesError "boom")).1.getLast? =
      some .restoreOriginal ∧
    (runMain sampleFS "manifest.txt" "/sandbox" (.raisesError "boom")).2.2 =
      initialSiteState) :=
  ⟨by decide,
    c2_restore_on_every_exit_path sampleFS "manifest.txt" "/sandbox"
      ["/sandbox/libs/foo", "/sandbox/libs/bar"] (.raisesError "boom") (by decide)⟩

/-- C5: while the override is installed, the user-scope discovery function
returns the empty result, whatever the original user-scope function would have
returned and whatever the state was before installation. -/
theorem c5_usersitepackages_empty_while_overridden (s : SiteState)
    (site_packages : List String) (origResult : String) :
    callGetusersitepackages origResult
      ((installOverrides site_packages s).getusersitepackages) = "" :=
  rfl

/-- C6: after `restore_original_sitepackages`, both discovery slots hold
exactly the values captured at lines 10-11 before the override was installed,
and restoring a second time changes nothing. -/
theorem c6_restore_exact_and_idempotent (s : SiteState) (site_packages : List String) :
    (restoreSitepackages (installOverrides site_packages s)).getsitepackages =
      SitePackagesFn.original ∧
    (restoreSitepackages (installOverrides site_packages s)).getusersitepackages =
      UserSitePackagesFn.original ∧
    restoreSitepackages (installOverrides site_packages s) = initialSiteState ∧
    restoreSitepackages (restoreSitepackages (installOverrides site_packages s)) =
      restoreSitepackages (installOverrides site_packages s) :=
  ⟨rfl, rfl, rfl, rfl⟩

/-- C3 counterexample: a run whose resulting status code is zero because the
checker raised SystemExit(0) does emit to the real streams — a blank line to
stdout (line 90) and a newline to stderr (line 91) — refuting the claim that a
zero status is always silent. -/
theorem c3_counterexample :
    (runMain sampleFS "manifest.txt" "/sandbox" (.raisesSystemExit 0 "")).2.1 =
      .exited 0 ∧
    Event.printStdout "\n" ∈
      (runMain sampleFS "manifest.txt" "/sandbox" (.raisesSystemExit 0 "")).1 ∧
    Event.printStderr "\n" ∈
      (runMain sampleFS "manifest.txt" "/sandbox" (.raisesSystemExit 0 "")).1 := by
  decide

/-- C3 amended: zero-status silence holds exactly on the normal-return path —
when the checker returns without raising, the trace contains no print events
at all and the process exits 0; the SystemExit(0) path instead prints a blank
line to the real stdout and the captured sink plus a newline to the real
stderr. -/
theorem c3_amended_silent_on_normal_return (fs : FS) (mp rr : String)
    (site_packages : List String) (sinkOutput : String)
    (h : monkey_patch_sitepackages fs mp rr = .installed site_packages) :
    (runMain fs mp rr (.returns sinkOutput)).1 =
      [.installOverride, .invokeChecker, .restoreOriginal] ∧
    (runMain fs mp rr (.returns sinkOutput)).2.1 = .exited 0 := by
  unfold runMain
  rw [h]
  exact ⟨rfl, rfl⟩

/-- Witness for the amended C3: on the sample sandbox with a normally
returning checker, the trace has no print events and the exit status is 0. -/
theorem c3_amended_silent_on_normal_return_witness :
    monkey_patch_sitepackages sampleFS "manifest.txt" "/sandbox" =
      .installed ["/sandbox/libs/foo", "/sandbox/libs/bar"] ∧
    ((runMain sampleFS "manifest.txt" "/sandbox" (.returns "")).1 =
      [.installOverride, .invokeChecker, .restoreOriginal] ∧
    (runMain sampleFS "manifest.txt" "/sandbox" (.returns "")).2.1 = .exited 0) :=
  ⟨by decide,
    c3_amended_silent_on_normal_return sampleFS "manifest.txt" "/sandbox"
      ["/sandbox/libs/foo", "/sandbox/libs/bar"] "" (by decide)⟩

/-- C4 counterexample: on a failing run the captured diagnostics reach the
real stderr, but the real stdout does not receive a duplicate of them — it
receives only a blank line, because the `stdout` sink printed at line 90 was
never handed to the checker (line 86 passes the `stderr` sink for both
streams). -/
theorem c4_counterexample :
    (runMain sampleFS "manifest.txt" "/sandbox"
      (.raisesSystemExit 1 "error: bad type")).2.1 = .exited 1 ∧
    Event.printStderr ("error: bad type" ++ "\n") ∈
      (runMain sampleFS "manifest.txt" "/sandbox" (.raisesSystemExit 1 "error: bad type")).1 ∧
    Event.printStdout ("error: bad type" ++ "\n") ∉
      (runMain sampleFS "manifest.txt" "/sandbox" (.raisesSystemExit 1 "error: bad type")).1 ∧
    Event.printStdout "\n" ∈
      (runMain sampleFS "manifest.txt" "/sandbox" (.raisesSystemExit 1 "error: bad type")).1 := by
  decide

/-- C4 amended: on a non-zero SystemExit the captured sink contents (plus the
newline `print` appends) go to the real stderr, while the real stdout receives
only the contents of the separate, never-written stdout sink — a blank line —
not a duplicate of the diagnostics. -/
theorem c4_amended_diagnostics_to_stderr_only (fs : FS) (mp rr : String)
    (site_packages : List String) (code : Nat) (sinkOutput : String)
    (h : monkey_patch_sitepackages fs mp rr = .installed site_packages)
    (_hc : code ≠ 0) :
    (runMain fs mp rr (.raisesSystemExit code sinkOutput)).1 =
      [.installOverride, .invokeChecker, .printStdout "\n",
       .printStderr (sinkOutput ++ "\n"), .restoreOriginal] ∧
    (runMain fs mp rr (.raisesSystemExit code sinkOutput)).2.1 = .exited code := by
  unfold runMain
  rw [h]
  exact ⟨rfl, rfl⟩

/-- Witness for the amended C4: checker fails with code 1 and diagnostics
`error: bad type`; stderr gets the diagnostics, stdout only a blank line. -/
theorem c4_amended_diagnostics_to_stderr_only_witness :
    monkey_patch_sitepackages sampleFS "manifest.txt" "/sandbox" =
      .installed ["/sandbox/libs/foo", "/sandbox/libs/bar"] ∧
    (1 : Nat) ≠ 0 ∧
    ((runMain sampleFS "manifest.txt" "/sandbox"
        (.raisesSystemExit 1 "error: bad type")).1 =
      [.installOverride, .invokeChecker, .printStdout "\n",
       .printStderr ("error: bad type" ++ "\n"), .restoreOriginal] ∧
    (runMain sampleFS "manifest.txt" "/sandbox"
        (.raisesSystemExit 1 "error: bad type")).2.1 = .exited 1) :=
  ⟨by decide, by decide,
    c4_amended_diagnostics_to_stderr_only sampleFS "manifest.txt" "/sandbox"
      ["/sandbox/libs/foo", "/sandbox/libs/bar"] 1 "error: bad type"
      (by decide) (by decide)⟩

/-- C7 counterexample: in the failing run both the stderr emission and the
restoration occur, but no occurrence of `restoreOriginal` precedes the
emission of the captured text — the `except` block (lines 90-91) prints before
the `finally` (line 93) restores — refuting the claim that restoration happens
first. -/
theorem c7_counterexample :
    (runMain sampleFS "manifest.txt" "/sandbox"
      (.raisesSystemExit 1 "error: bad type")).2.1 = .exited 1 ∧
    Event.printStderr ("error: bad type" ++ "\n") ∈
      (runMain sampleFS "manifest.txt" "/sandbox" (.raisesSystemExit 1 "error: bad type")).1 ∧
    Event.restoreOriginal ∈
      (runMain sampleFS "manifest.txt" "/sandbox" (.raisesSystemExit 1 "error: bad type")).1 ∧
    occursBefore .restoreOriginal (.printStderr ("error: bad type" ++ "\n"))
      (runMain sampleFS "manifest.txt" "/sandbox"
        (.raisesSystemExit 1 "error: bad type")).1 = false := by
  decide

/-- C7 amended: on a failing run the captured text is written to the real
stderr strictly before `restore_original_sitepackages` runs; restoration still
occurs afterwards, before the process exits with the checker code. -/
theorem c7_amended_emission_precedes_restore (fs : FS) (mp rr : String)
    (site_packages : List String) (code : Nat) (sinkOutput : String)
    (h : monkey_patch_sitepackages fs mp rr = .installed site_packages)
    (_hc : code ≠ 0) :
    occursBefore (.printStderr (sinkOutput ++ "\n")) .restoreOriginal
      (runMain fs mp rr (.raisesSystemExit code sinkOutput)).1 = true ∧
    Event.restoreOriginal ∈ (runMain fs mp rr (.raisesSystemExit code sinkOutput)).1 ∧
    (runMain fs mp rr (.raisesSystemExit code sinkOutput)).2.1 = .exited code := by
  unfold runMain
  rw [h]
  refine ⟨?_, by simp, rfl⟩
  simp [occursBefore]

/-- Witness for the amended C7: in the concrete failing run the stderr
emission precedes restoration, and restoration still occurs. -/
theorem c7_amended_emission_precedes_restore_witness :
    monkey_patch_sitepackages sampleFS "manifest.txt" "/sandbox" =
      .installed ["/sandbox/libs/foo", "/sandbox/libs/bar"] ∧
    (1 : Nat) ≠ 0 ∧
    (occursBefore (.printStderr ("error: bad type" ++ "\n")) .restoreOriginal
      (runMain sampleFS "manifest.txt" "/sandbox"
        (.raisesSystemExit 1 "error: bad type")).1 = true ∧
    Event.restoreOriginal ∈
      (runMain sampleFS "manifest.txt" "/sandbox" (.raisesSystemExit 1 "error: bad type")).1 ∧
    (runMain sampleFS "manifest.txt" "/sandbox"
        (.raisesSystemExit 1 "error: bad type")).2.1 = .exited 1) :=
  ⟨by decide, by decide,
    c7_amended_emission_precedes_restore sampleFS "manifest.txt" "/sandbox"
      ["/sandbox/libs/foo", "/sandbox/libs/bar"] 1 "error: bad type"
      (by decide) (by decide)⟩

/-- When some manifest entry resolves to a missing path, the existence scan at
lines 51-52 fails and `monkey_patch_sitepackages` ends in an assertion
failure. -/
theorem monkey_patch_assertion_of_missing (fs : FS) (mp rr content entry : String)
    (hread : fs.readFile mp = some content)
    (hmem : entry ∈ splitOnNewlines content)
    (hmiss : fs.pathExists (osPathJoin rr entry) = false) :
    ∃ p, monkey_patch_sitepackages fs mp rr = .assertionFailure p := by
  unfold monkey_patch_sitepackages
  rw [hread]
  rcases hf : ((splitOnNewlines content).map (osPathJoin rr)).find?
      (fun p => !(fs.pathExists p)) with _ | p
  · exfalso
    have hall := List.find?_eq_none.mp hf (osPathJoin rr entry)
      (List.mem_map_of_mem (osPathJoin rr) hmem)
    rw [hmiss] at hall
    exact hall rfl
  · exact ⟨p, by simp only [hf]⟩

/-- C8: if any manifest entry resolves to a path that does not exist, the run
aborts with the assertion error before anything observable happens: the trace
is empty (no override installed, no checker invocation, no output) and the
discovery state is untouched. -/
theorem c8_missing_path_aborts_untouched (fs : FS) (mp rr content entry : String)
    (checker : CheckerBehavior)
    (hread : fs.readFile mp = some content)
    (hmem : entry ∈ splitOnNewlines content)
    (hmiss : fs.pathExists (osPathJoin rr entry) = false) :
    runMain fs mp rr checker = ([], .assertionError, initialSiteState) := by
  obtain ⟨p, hp⟩ := monkey_patch_assertion_of_missing fs mp rr content entry hread hmem hmiss
  unfold runMain
  rw [hp]

/-- Witness for C8: the manifest names `libs/missing`, which does not exist
under `/sandbox`; the run aborts with an empty trace and the original state. -/
theorem c8_missing_path_aborts_untouched_witness :
    missingDirFS.readFile "manifest.txt" = some "libs/foo\nlibs/missing" ∧
    "libs/missing" ∈ splitOnNewlines "libs/foo\nlibs/missing" ∧
    missingDirFS.pathExists (osPathJoin "/sandbox" "libs/missing") = false ∧
    runMain missingDirFS "manifest.txt" "/sandbox" (.returns "") =
      ([], .assertionError, initialSiteState) :=
  ⟨by decide, by decide, by decide,
    c8_missing_path_aborts_untouched missingDirFS "manifest.txt" "/sandbox"
      "libs/foo\nlibs/missing" "libs/missing" (.returns "")
      (by decide) (by decide) (by decide)⟩

/-- C9 counterexample: after installing the override twice in a row (two
different path lists) without restoring in between, a single
`restore_original_sitepackages` still yields exactly the process-start state —
the captured originals of lines 10-11 are module-level constants that a second
install does not touch, so restoration is not corrupted. -/
theorem c9_counterexample :
    restoreSitepackages (installOverrides ["/sandbox/libs/bar"]
      (installOverrides ["/sandbox/libs/foo"] initialSiteState)) = initialSiteState := by
  decide

/-- C9 amended: a second install before restoration replaces the first
override rather than nesting it — the primary result afterwards is the second
path list plus the original, with the first list gone — but it does not
corrupt the captured originals: restoring afterwards still yields the true
pre-install state. -/
theorem c9_amended_second_install_replaces_not_corrupts (s : SiteState)
    (sp1 sp2 origResult : List String) :
    callGetsitepackages origResult
      ((installOverrides sp2 (installOverrides sp1 s)).getsitepackages) =
      sp2 ++ origResult ∧
    restoreSitepackages (installOverrides sp2 (installOverrides sp1 s)) =
      initialSiteState :=
  ⟨rfl, rfl⟩

/-- C10: when the manifest cannot be read, the run prints exactly one line —
the diagnostic naming the manifest path and the underlying error — to the real
stdout (none to stderr), and then exits with status 1, the discovery state
never having been touched. -/
theorem c10_manifest_read_failure_prints_to_stdout (fs : FS) (mp rr : String)
    (checker : CheckerBehavior) (hread : fs.readFile mp = none) :
    runMain fs mp rr checker =
      ([.printStdout (manifestReadErrorMsg mp fs.errText ++ "\n")], .exited 1,
        initialSiteState) ∧
    ∃ pre post, manifestReadErrorMsg mp fs.errText = pre ++ (mp ++ post) := by
  constructor
  · unfold runMain monkey_patch_sitepackages
    rw [hread]
  · exact ⟨"Unexpected error while reading dependency manifest file at \x27",
      "\x27 " ++ fs.errText, rfl⟩

/-- Witness for C10: with no manifest file present, the run prints the
diagnostic line to stdout and exits 1. -/
theorem c10_manifest_read_failure_prints_to_stdout_witness :
    noManifestFS.readFile "manifest.txt" = none ∧
    (runMain noManifestFS "manifest.txt" "/sandbox" (.returns "") =
      ([.printStdout (manifestReadErrorMsg "manifest.txt"
          "No such file or directory" ++ "\n")], .exited 1, initialSiteState) ∧
    ∃ pre post, manifestReadErrorMsg "manifest.txt" "No such file or directory" =
      pre ++ ("manifest.txt" ++ post)) :=
  ⟨by decide,
    c10_manifest_read_failure_prints_to_stdout noManifestFS "manifest.txt" "/sandbox"
      (.returns "") (by decide)⟩

end BazelMypy



